import Mathlib

/-
Verification of the referee-pattern repository's design spec against a shallow
embedding of its Python source (src/referee/models.py, src/referee/rules.py,
src/referee/referee.py, src/calculator/*).

Modelling conventions:
- Machine dictionaries `Dict[str, Any]` are modelled as association lists of
  string keys to string values; the claims only depend on data equality.
- A raised Python exception is modelled as an `Except`-style error value; the
  string carried is `str(e)`.
- Every place the Python code calls `rule.evaluate(action)` the model appends
  the rule's name to an explicit call log, so "rule X was (not) invoked"
  becomes a statement about that log.
- Numeric calculator values are modelled as rationals; the division-by-zero
  pathway under scrutiny only tests `b == 0`, which is exact.
-/

namespace RefereeSpec

/-- Action (models.py, `@dataclass(frozen=True, slots=True)`): immutable value
object carrying a type tag and a data mapping. -/
structure Action where
  action_type : String
  data : List (String × String)
deriving DecidableEq, Repr

/-- Stand-in for the Python string hash used by `Action.__hash__`. Python's
string hash is process-seeded; the claims depend only on the action hash being
a deterministic function of the hashed string, so a fixed 64-bit polynomial
fold models it. -/
def strHash (s : String) : Nat :=
  s.data.foldl (fun h c => (h * 31 + c.toNat) % (2 ^ 64)) 5381

/-- `Action.__hash__` (models.py lines 49-54): hashes `action_type` only. -/
def Action.pyHash (a : Action) : Nat := strHash a.action_type

/-- `Action.__eq__`: the frozen dataclass keeps the explicitly defined
`__hash__` but still generates `__eq__`, which compares ALL fields:
`action_type` and `data`. -/
def Action.pyEq (a b : Action) : Bool :=
  a.action_type == b.action_type && a.data == b.data

/-- The metadata mapping built by `Referee._validate_uncached`: it always holds
exactly the keys `rules_evaluated`, `rules_passed`, `rules_failed`,
`validation_number`. -/
structure Metadata where
  rules_evaluated : Nat
  rules_passed : Nat
  rules_failed : Nat
  validation_number : Nat
deriving DecidableEq, Repr

/-- ValidationResult (models.py): immutable outcome value object. Built via the
`create` factory, which tuples the message list. -/
structure ValidationResult where
  is_valid : Bool
  messages : List String
  metadata : Metadata
deriving DecidableEq, Repr

/-- Outcome of calling `rule.evaluate(action)` in Python: a normal
`(passed, message)` return, a raised ValidationError, or any other raised
exception; the carried string is `str(e)`. -/
inductive RuleOutcome where
  | ok (passed : Bool) (message : String)
  | validationError (message : String)
  | otherError (message : String)
deriving DecidableEq, Repr

/-- A rule as the Referee sees it (rules.py `Rule` abstract base): a name and
an evaluate operation. -/
structure Rule where
  name : String
  evaluate : Action → RuleOutcome

/-- `ValidationRule.evaluate` (rules.py lines 118-148): for a genuine Action
the None/isinstance checks pass; the subclass hook `_validate` is called, a
raised ValidationError is re-raised as-is, and any other exception is wrapped
into a ValidationError citing the rule name and the original message. -/
def ValidationRule.evaluate (name : String) (hook : Action → RuleOutcome)
    (a : Action) : RuleOutcome :=
  match hook a with
  | .ok p m => .ok p m
  | .validationError m => .validationError m
  | .otherError m => .validationError ("Rule '" ++ name ++ "' failed: " ++ m)

/-- `AlwaysValidRule` (rules.py lines 230-245), built through the
ValidationRule template. -/
def AlwaysValidRule : Rule :=
  { name := "AlwaysValidRule",
    evaluate := ValidationRule.evaluate "AlwaysValidRule"
      (fun _ => .ok true "Action is valid") }

/-- `ActionTypeRule` (rules.py lines 197-227), built through the
ValidationRule template. -/
def ActionTypeRule (expected : String) : Rule :=
  { name := "ActionTypeRule(" ++ expected ++ ")",
    evaluate := ValidationRule.evaluate ("ActionTypeRule(" ++ expected ++ ")")
      (fun a =>
        if a.action_type == expected then
          .ok true ("Action type '" ++ a.action_type ++ "' is valid")
        else
          .ok false ("Expected action type '" ++ expected ++ "', got '" ++
            a.action_type ++ "'")) }

/-- The errors `Referee.validate` / `Referee.add_rule` can raise
(exceptions.py). -/
inductive RefErr where
  | validationError (message : String)
  | resourceExhaustedError (message : String)
  | configurationError (message : String)
deriving DecidableEq, Repr

/-- Whether an error is the configuration kind (`ConfigurationError`). -/
def RefErr.isConfiguration : RefErr → Bool
  | .configurationError _ => true
  | _ => false

/-- Referee state (referee.py `__slots__`): rule list, validation counter,
ceiling, the two flags, and the `lru_cache(maxsize=1024)` attached to
`_validate_cached`, modelled most-recently-used-first. -/
structure Referee where
  rules : List Rule
  validation_count : Nat
  max_validations : Nat
  enable_caching : Bool
  fail_fast : Bool
  cache : List (Action × ValidationResult)

/-- The `action` argument passed to `validate`: Python callers may pass None
or a non-Action object. -/
inductive PyArg where
  | none
  | notAnAction (typeName : String)
  | action (a : Action)

/-- The `rule` argument passed to `add_rule`. -/
inductive RuleArg where
  | none
  | notARule (typeName : String)
  | rule (r : Rule)

/-- Accumulator of the rule loop in `Referee._validate_uncached`, plus the
instrumentation call log. -/
structure EvalAcc where
  messages : List String
  is_valid : Bool
  rules_evaluated : Nat
  rules_passed : Nat
  rules_failed : Nat
  calls : List String

def initAcc : EvalAcc :=
  { messages := [], is_valid := true, rules_evaluated := 0,
    rules_passed := 0, rules_failed := 0, calls := [] }

/-- The rule loop of `Referee._validate_uncached` (referee.py lines 253-291):
evaluate each rule in order, collect one message per evaluated rule, count
passes and failures, treat a raised ValidationError or any other exception as
a failing outcome with a synthesized message, and break after a failing or
erroring rule when `fail_fast` is set. -/
def runRules (fail_fast : Bool) (a : Action) : List Rule → EvalAcc → EvalAcc
  | [], acc => acc
  | r :: rest, acc =>
    match r.evaluate a with
    | .ok p m =>
      let acc := { acc with
        calls := acc.calls ++ [r.name],
        messages := acc.messages ++ ["[" ++ r.name ++ "] " ++ m],
        rules_evaluated := acc.rules_evaluated + 1 }
      if p then
        runRules fail_fast a rest { acc with rules_passed := acc.rules_passed + 1 }
      else
        let acc := { acc with rules_failed := acc.rules_failed + 1, is_valid := false }
        if fail_fast then acc else runRules fail_fast a rest acc
    | .validationError m =>
      let acc := { acc with
        calls := acc.calls ++ [r.name],
        messages := acc.messages ++ ["[" ++ r.name ++ "] ValidationError: " ++ m],
        rules_failed := acc.rules_failed + 1,
        rules_evaluated := acc.rules_evaluated + 1,
        is_valid := false }
      if fail_fast then acc else runRules fail_fast a rest acc
    | .otherError m =>
      let acc := { acc with
        calls := acc.calls ++ [r.name],
        messages := acc.messages ++ ["[" ++ r.name ++ "] Error: " ++ m],
        rules_failed := acc.rules_failed + 1,
        rules_evaluated := acc.rules_evaluated + 1,
        is_valid := false }
      if fail_fast then acc else runRules fail_fast a rest acc

/-- `Referee._validate_uncached` (referee.py lines 224-296). Also returns the
call log: the names of the rules whose `evaluate` was invoked. -/
def Referee.validateUncached (ref : Referee) (a : Action) :
    ValidationResult × List String :=
  if ref.rules.isEmpty then
    ({ is_valid := true,
       messages := ["No rules configured - action accepted by default"],
       metadata := { rules_evaluated := 0, rules_passed := 0, rules_failed := 0,
                     validation_number := ref.validation_count } }, [])
  else
    let acc := runRules ref.fail_fast a ref.rules initAcc
    ({ is_valid := acc.is_valid,
       messages := acc.messages,
       metadata := { rules_evaluated := acc.rules_evaluated,
                     rules_passed := acc.rules_passed,
                     rules_failed := acc.rules_failed,
                     validation_number := ref.validation_count } },
     acc.calls)

/-- `functools.lru_cache` lookup: the first entry whose key equals the argument
(Python hash then eq; equal Actions hash equally here) is removed from its
position; the caller reinserts it at the most-recently-used front. -/
def lruExtract : List (Action × ValidationResult) → Action →
    Option ((Action × ValidationResult) × List (Action × ValidationResult))
  | [], _ => Option.none
  | (k, v) :: rest, a =>
    if Action.pyEq k a then some ((k, v), rest)
    else
      match lruExtract rest a with
      | Option.none => Option.none
      | some (e, rest') => some (e, (k, v) :: rest')

/-- `Referee._validate_cached` (referee.py lines 298-311): the
`lru_cache(maxsize=1024)` wrapper around `_validate_uncached`. On a hit the
stored result is returned (no rule invoked, empty call log) and the entry
becomes most recently used; on a miss the uncached result is computed, stored,
and the least-recently-used entry is evicted past 1024 entries. -/
def Referee.validateCached (ref : Referee) (a : Action) :
    ValidationResult × Referee × List String :=
  match lruExtract ref.cache a with
  | some (e, rest) => (e.2, { ref with cache := e :: rest }, [])
  | Option.none =>
    let r := ref.validateUncached a
    let newCache := (a, r.1) :: ref.cache
    (r.1, { ref with
      cache := if newCache.length > 1024 then newCache.dropLast else newCache },
     r.2)

/-- The exact ceiling-exceeded message of referee.py lines 195-198. -/
def ceilingMessage (m : Nat) : String :=
  "Maximum validation limit of " ++ toString m ++
    " reached. Consider resetting or increasing the limit."

/-- `Referee.validate` (referee.py lines 157-222): ceiling check first, then
argument checks, then counter increment, then the cached or uncached path.
Returns the result or raised error, the post-call referee state, and the call
log of rule evaluations performed during the call. -/
def Referee.validate (ref : Referee) (arg : PyArg) :
    Except RefErr ValidationResult × Referee × List String :=
  if ref.validation_count ≥ ref.max_validations then
    (.error (.resourceExhaustedError (ceilingMessage ref.max_validations)), ref, [])
  else
    match arg with
    | .none => (.error (.validationError "Action cannot be None"), ref, [])
    | .notAnAction t =>
      (.error (.validationError ("Expected Action, got " ++ t)), ref, [])
    | .action a =>
      let ref1 := { ref with validation_count := ref.validation_count + 1 }
      if ref.enable_caching then
        let r := ref1.validateCached a
        (.ok r.1, r.2.1, r.2.2)
      else
        let r := ref1.validateUncached a
        (.ok r.1, ref1, r.2)

/-- `Referee.add_rule` (referee.py lines 133-155): rejects None and non-Rule
arguments with a ValidationError, otherwise appends the rule. The cache is not
touched. -/
def Referee.addRule (ref : Referee) (arg : RuleArg) : Except RefErr Referee :=
  match arg with
  | .none => .error (.validationError "Rule cannot be None")
  | .notARule t =>
    .error (.validationError ("Expected Rule instance, got " ++ t))
  | .rule r => .ok { ref with rules := ref.rules ++ [r] }

/-- `Referee.clear_cache` (referee.py lines 313-321). -/
def Referee.clearCache (ref : Referee) : Referee := { ref with cache := [] }

/-- `Referee.reset` (referee.py lines 323-332): counter to 0 and cache
cleared. -/
def Referee.reset (ref : Referee) : Referee :=
  { ref with validation_count := 0, cache := [] }

/-- A sequence of `validate` calls, returning the final state and the
per-call outcomes. -/
def validateRun (ref : Referee) : List Action →
    Referee × List (Except RefErr ValidationResult)
  | [] => (ref, [])
  | a :: rest =>
    let step := ref.validate (.action a)
    let tail := validateRun step.2.1 rest
    (tail.1, step.1 :: tail.2)

/-- `DivisionByZeroError` (calculator/exceptions.py lines 14-20): carries the
dividend; its message renders that dividend. -/
structure DivisionByZeroError where
  dividend : Rat
deriving DecidableEq, Repr

/-- `DivideOperation.execute` (calculator/operations.py lines 91-95). -/
def DivideOperation.execute (a b : Rat) : Except DivisionByZeroError Rat :=
  if b == 0 then .error { dividend := a } else .ok (a / b)

/-- Calculator state (calculator/calculator.py): the operation objects are
stateless, so the mutable state is `_last_result`. -/
structure Calculator where
  last_result : Option Rat
deriving DecidableEq, Repr

/-- `Calculator.divide` (calculator/calculator.py lines 100-115):
`self._last_result = self._divide_op.execute(a, b)` — the assignment only
happens when `execute` returns; a raised error leaves the state untouched. -/
def Calculator.divide (c : Calculator) (a b : Rat) :
    Except DivisionByZeroError Rat × Calculator :=
  match DivideOperation.execute a b with
  | .error e => (.error e, c)
  | .ok r => (.ok r, { last_result := some r })

/-- Whether a rule outcome counts as passed in `_validate_uncached`: a normal
`(True, msg)` return; a `(False, msg)` return or any raised exception counts
as a failing outcome. -/
def RuleOutcome.passed : RuleOutcome → Bool
  | .ok p _ => p
  | _ => false

/-- The message `_validate_uncached` records for one evaluated rule. -/
def ruleMessage (a : Action) (r : Rule) : String :=
  match r.evaluate a with
  | .ok _ m => "[" ++ r.name ++ "] " ++ m
  | .validationError m => "[" ++ r.name ++ "] ValidationError: " ++ m
  | .otherError m => "[" ++ r.name ++ "] Error: " ++ m

/-- The rules a validation run actually evaluates: all of them without
fail-fast, and the prefix up to and including the first non-passing rule with
fail-fast. -/
def evaluatedRules (fail_fast : Bool) (a : Action) : List Rule → List Rule
  | [] => []
  | r :: rest =>
    if (r.evaluate a).passed then r :: evaluatedRules fail_fast a rest
    else if fail_fast then [r]
    else r :: evaluatedRules fail_fast a rest

/-- The result `_validate_uncached` returns when no rules are configured,
at counter value `n`. -/
def emptyRulesResult (n : Nat) : ValidationResult :=
  { is_valid := true,
    messages := ["No rules configured - action accepted by default"],
    metadata := { rules_evaluated := 0, rules_passed := 0, rules_failed := 0,
                  validation_number := n } }

/-- A rule whose evaluate raises a non-ValidationError exception directly at
the Referee level (a `Rule` implementor not derived from ValidationRule). -/
def BoomRule : Rule :=
  { name := "BoomRule", evaluate := fun _ => .otherError "boom" }

/-- A ValidationRule subclass whose hook raises an unexpected exception: the
template wrapper re-wraps it into a ValidationError. -/
def WrappedBangRule : Rule :=
  { name := "WrappedBangRule",
    evaluate := ValidationRule.evaluate "WrappedBangRule"
      (fun _ => .otherError "bang") }

/-- A freshly constructed referee with default settings and no rules. -/
def refDemo : Referee :=
  { rules := [], validation_count := 0, max_validations := 10000,
    enable_caching := true, fail_fast := false, cache := [] }

/-- Fresh referee with a type rule and an always-valid rule, fail-fast on. -/
def claim1Ref : Referee :=
  { rules := [ActionTypeRule "login", AlwaysValidRule],
    validation_count := 0, max_validations := 10000,
    enable_caching := true, fail_fast := true, cache := [] }

/-- Fresh caching referee with one rule. -/
def claim2Ref : Referee :=
  { rules := [ActionTypeRule "login"],
    validation_count := 0, max_validations := 10000,
    enable_caching := true, fail_fast := false, cache := [] }

/-- Fresh referee with ceiling 2. -/
def claim3Ref : Referee :=
  { rules := [AlwaysValidRule],
    validation_count := 0, max_validations := 2,
    enable_caching := true, fail_fast := false, cache := [] }

/-- Fresh referee with no rules and a small ceiling. -/
def claim4Ref : Referee :=
  { rules := [], validation_count := 0, max_validations := 5,
    enable_caching := true, fail_fast := false, cache := [] }

/-- Referee whose chain contains an erroring raw rule, an erroring
template-wrapped rule and a passing rule; fail-fast off. -/
def claim7Ref : Referee :=
  { rules := [BoomRule, WrappedBangRule, AlwaysValidRule],
    validation_count := 0, max_validations := 10000,
    enable_caching := true, fail_fast := false, cache := [] }

/-- An exhausted referee: counter at the ceiling. -/
def claim9Ref : Referee :=
  { rules := [AlwaysValidRule], validation_count := 5, max_validations := 5,
    enable_caching := true, fail_fast := false, cache := [] }

/-- Fresh caching referee used for the stale-cache scenario. -/
def claim10Ref : Referee :=
  { rules := [AlwaysValidRule],
    validation_count := 0, max_validations := 10000,
    enable_caching := true, fail_fast := false, cache := [] }

/-- Without fail-fast every registered rule is evaluated. -/
theorem evaluatedRules_all (a : Action) (l : List Rule) :
    evaluatedRules false a l = l := by
  induction l with
  | nil => rfl
  | cons r rest ih =>
    by_cases h : (r.evaluate a).passed
    · simp [evaluatedRules, h, ih]
    · simp [evaluatedRules, h, ih]

/-- Characterization of the rule loop: every field of the accumulator is
determined by the list of actually evaluated rules. -/
theorem runRules_spec (ff : Bool) (a : Action) (l : List Rule) (acc : EvalAcc) :
    runRules ff a l acc =
      { messages := acc.messages ++ (evaluatedRules ff a l).map (ruleMessage a),
        is_valid := acc.is_valid &&
          (evaluatedRules ff a l).all (fun r => (r.evaluate a).passed),
        rules_evaluated :=
          acc.rules_evaluated + (evaluatedRules ff a l).length,
        rules_passed := acc.rules_passed +
          ((evaluatedRules ff a l).filter (fun r => (r.evaluate a).passed)).length,
        rules_failed := acc.rules_failed +
          ((evaluatedRules ff a l).filter (fun r => !(r.evaluate a).passed)).length,
        calls := acc.calls ++ (evaluatedRules ff a l).map Rule.name } := by
  induction l generalizing acc with
  | nil => simp [runRules, evaluatedRules]
  | cons r rest ih =>
    cases h : r.evaluate a with
    | ok p m =>
      have hp : (r.evaluate a).passed = p := by rw [h]; rfl
      cases p with
      | true =>
        simp [runRules, h, ih, evaluatedRules, RuleOutcome.passed, hp,
          ruleMessage, Nat.add_assoc, Nat.add_comm 1]
      | false =>
        cases ff with
        | true =>
          simp [runRules, h, evaluatedRules, RuleOutcome.passed, hp, ruleMessage]
        | false =>
          simp [runRules, h, ih, evaluatedRules, RuleOutcome.passed, hp,
            ruleMessage, Nat.add_assoc, Nat.add_comm 1]
    | validationError m =>
      have hp : (r.evaluate a).passed = false := by rw [h]; rfl
      cases ff with
      | true =>
        simp [runRules, h, evaluatedRules, RuleOutcome.passed, hp, ruleMessage]
      | false =>
        simp [runRules, h, ih, evaluatedRules, RuleOutcome.passed, hp,
          ruleMessage, Nat.add_assoc, Nat.add_comm 1]
    | otherError m =>
      have hp : (r.evaluate a).passed = false := by rw [h]; rfl
      cases ff with
      | true =>
        simp [runRules, h, evaluatedRules, RuleOutcome.passed, hp, ruleMessage]
      | false =>
        simp [runRules, h, ih, evaluatedRules, RuleOutcome.passed, hp,
          ruleMessage, Nat.add_assoc, Nat.add_comm 1]

/-- `_validate_uncached` on a nonempty rule list, characterized by the
evaluated-rules prefix. -/
theorem validateUncached_spec (ref : Referee) (a : Action)
    (h : ref.rules.isEmpty = false) :
    ref.validateUncached a =
      ({ is_valid :=
           (evaluatedRules ref.fail_fast a ref.rules).all
             (fun r => (r.evaluate a).passed),
         messages :=
           (evaluatedRules ref.fail_fast a ref.rules).map (ruleMessage a),
         metadata :=
           { rules_evaluated := (evaluatedRules ref.fail_fast a ref.rules).length,
             rules_passed :=
               ((evaluatedRules ref.fail_fast a ref.rules).filter
                 (fun r => (r.evaluate a).passed)).length,
             rules_failed :=
               ((evaluatedRules ref.fail_fast a ref.rules).filter
                 (fun r => !(r.evaluate a).passed)).length,
             validation_number := ref.validation_count } },
       (evaluatedRules ref.fail_fast a ref.rules).map Rule.name) := by
  unfold Referee.validateUncached
  rw [h]
  rw [runRules_spec]
  simp [initAcc]

/-- The dataclass equality is structural equality of the model. -/
theorem pyEq_iff (a b : Action) : Action.pyEq a b = true ↔ a = b := by
  cases a
  cases b
  simp [Action.pyEq, Action.mk.injEq]

theorem pyEq_refl (a : Action) : Action.pyEq a a = true := by
  simp [Action.pyEq]

/-- A successful cache lookup returns an entry of the cache whose key equals
the argument. -/
theorem lruExtract_some (c : List (Action × ValidationResult)) (a : Action)
    (e : Action × ValidationResult) (rest : List (Action × ValidationResult))
    (h : lruExtract c a = some (e, rest)) :
    Action.pyEq e.1 a = true ∧ e ∈ c := by
  induction c generalizing rest with
  | nil => simp [lruExtract] at h
  | cons kv tail ih =>
    obtain ⟨k, v⟩ := kv
    by_cases hk : Action.pyEq k a = true
    · rw [lruExtract, if_pos hk] at h
      obtain ⟨he, _⟩ := Prod.mk.injEq .. ▸ (Option.some.injEq .. ▸ h)
      subst he
      exact ⟨hk, List.mem_cons_self _ _⟩
    · rw [lruExtract, if_neg hk] at h
      cases hrec : lruExtract tail a with
      | none => rw [hrec] at h; exact absurd h (by simp)
      | some er =>
        rw [hrec] at h
        obtain ⟨e', rest'⟩ := er
        obtain ⟨he, _⟩ := Prod.mk.injEq .. ▸ (Option.some.injEq .. ▸ h)
        subst he
        obtain ⟨h1, h2⟩ := ih rest' hrec
        exact ⟨h1, List.mem_cons_of_mem _ h2⟩

/-- `validate` on a valid action below the ceiling: succeeds, increments the
counter by one, and leaves the rule list, ceiling and flags unchanged. -/
theorem validate_ok (ref : Referee) (a : Action)
    (h : ref.validation_count < ref.max_validations) :
    ∃ res ref' cs, ref.validate (.action a) = (.ok res, ref', cs) ∧
      ref'.rules = ref.rules ∧
      ref'.validation_count = ref.validation_count + 1 ∧
      ref'.max_validations = ref.max_validations ∧
      ref'.enable_caching = ref.enable_caching ∧
      ref'.fail_fast = ref.fail_fast := by
  unfold Referee.validate
  rw [if_neg (Nat.not_le.mpr h)]
  cases hc : ref.enable_caching with
  | true =>
    simp only [Referee.validateCached]
    cases hl : lruExtract ref.cache a with
    | none =>
      by_cases hlen : ((a, Referee.validateUncached
          { ref with validation_count := ref.validation_count + 1 } a |>.1) ::
            ref.cache).length > 1024
      · simp only [hl, if_pos hlen]
        exact ⟨_, _, _, rfl, rfl, rfl, rfl, rfl, rfl⟩
      · simp only [hl, if_neg hlen]
        exact ⟨_, _, _, rfl, rfl, rfl, rfl, rfl, rfl⟩
    | some er =>
      simp only [hl]
      exact ⟨_, _, _, rfl, rfl, rfl, rfl, rfl, rfl⟩
  | false =>
    exact ⟨_, _, _, rfl, rfl, rfl, rfl, rfl, rfl⟩

/-- `validate` below the ceiling with caching disabled or a cache miss
computes the uncached result on the incremented state. -/
theorem validate_miss (ref : Referee) (a : Action)
    (h : ref.validation_count < ref.max_validations)
    (hm : ref.enable_caching = false ∨ lruExtract ref.cache a = Option.none) :
    ∃ ref',
      ref.validate (.action a) =
        (.ok ({ ref with validation_count :=
            ref.validation_count + 1 }.validateUncached a).1,
         ref',
         ({ ref with validation_count :=
            ref.validation_count + 1 }.validateUncached a).2) := by
  unfold Referee.validate
  rw [if_neg (Nat.not_le.mpr h)]
  cases hc : ref.enable_caching with
  | false => exact ⟨_, rfl⟩
  | true =>
    cases hm with
    | inl h' => exact absurd hc (by rw [h']; exact Bool.false_ne_true)
    | inr h' =>
      simp only [if_true, Referee.validateCached, h']
      split
      · exact ⟨_, rfl⟩
      · exact ⟨_, rfl⟩

/-- After a successful `validate` with caching enabled, the most recently
used cache entry holds the returned result under a key equal to the
validated action. -/
theorem validate_caching_head (ref : Referee) (a : Action)
    (h : ref.validation_count < ref.max_validations)
    (hc : ref.enable_caching = true) :
    ∃ res ref' cs k rest, ref.validate (.action a) = (.ok res, ref', cs) ∧
      ref'.cache = (k, res) :: rest ∧ Action.pyEq k a = true ∧
      ref'.rules = ref.rules ∧
      ref'.validation_count = ref.validation_count + 1 ∧
      ref'.max_validations = ref.max_validations ∧
      ref'.enable_caching = ref.enable_caching ∧
      ref'.fail_fast = ref.fail_fast := by
  unfold Referee.validate
  rw [if_neg (Nat.not_le.mpr h)]
  simp only [hc, if_true]
  simp only [Referee.validateCached]
  split
  next e rest heq =>
    obtain ⟨hk, _⟩ := lruExtract_some ref.cache a e rest heq
    exact ⟨e.2, _, [], e.1, rest, rfl, rfl, hk, rfl, rfl, rfl, rfl, rfl⟩
  next heq =>
    split
    next hlen =>
      cases hcc : ref.cache with
      | nil =>
        rw [hcc] at hlen
        simp at hlen
      | cons y t =>
        exact ⟨_, _, _, a, (y :: t).dropLast, rfl, rfl, pyEq_refl a,
          rfl, rfl, rfl, rfl, rfl⟩
    next hlen =>
      exact ⟨_, _, _, a, ref.cache, rfl, rfl, pyEq_refl a,
        rfl, rfl, rfl, rfl, rfl⟩

/-- `_validate_uncached` with no rules configured. -/
theorem validateUncached_nil (ref : Referee) (a : Action) (h : ref.rules = []) :
    ref.validateUncached a = (emptyRulesResult ref.validation_count, []) := by
  unfold Referee.validateUncached
  rw [h]
  rfl

/-- `validate` on any cache hit: the stored result is returned unchanged, the
counter still increments, and no rule is invoked. -/
theorem validate_hit_general (ref : Referee) (a : Action)
    (e : Action × ValidationResult) (rest : List (Action × ValidationResult))
    (hl : lruExtract ref.cache a = some (e, rest))
    (h : ref.validation_count < ref.max_validations)
    (hc : ref.enable_caching = true) :
    ref.validate (.action a) =
      (.ok e.2,
       { ref with validation_count := ref.validation_count + 1,
                  cache := e :: rest }, []) := by
  unfold Referee.validate
  rw [if_neg (Nat.not_le.mpr h)]
  simp only [hc, if_true, Referee.validateCached, hl]

/-- `validate` on a cache hit at the head entry: the stored result is
returned, the counter still increments, and no rule is invoked (empty call
log). -/
theorem validate_hit (ref : Referee) (a k : Action) (res : ValidationResult)
    (rest : List (Action × ValidationResult))
    (hcache : ref.cache = (k, res) :: rest) (hk : Action.pyEq k a = true)
    (h : ref.validation_count < ref.max_validations)
    (hc : ref.enable_caching = true) :
    ref.validate (.action a) =
      (.ok res,
       { ref with validation_count := ref.validation_count + 1,
                  cache := (k, res) :: rest }, []) := by
  unfold Referee.validate
  rw [if_neg (Nat.not_le.mpr h)]
  simp only [hc, if_true]
  simp only [Referee.validateCached]
  have : lruExtract ref.cache a = some ((k, res), rest) := by
    rw [hcache, lruExtract, if_pos hk]
  rw [this]

/-- A run of `n` valid validations starting within budget: every call
succeeds, the counter advances by `n`, the ceiling is unchanged. -/
theorem validateRun_ok (acts : List Action) (ref : Referee)
    (h : ref.validation_count + acts.length ≤ ref.max_validations) :
    (∀ o ∈ (validateRun ref acts).2, ∃ res, o = .ok res) ∧
      (validateRun ref acts).1.validation_count =
        ref.validation_count + acts.length ∧
      (validateRun ref acts).1.max_validations = ref.max_validations := by
  induction acts generalizing ref with
  | nil => simp [validateRun]
  | cons a rest ih =>
    have hlt : ref.validation_count < ref.max_validations := by
      simp only [List.length_cons] at h
      omega
    obtain ⟨res, ref', cs, heq, _, hcount, hmax, _, _⟩ := validate_ok ref a hlt
    simp only [validateRun, heq]
    have hh : ref'.validation_count + rest.length ≤ ref'.max_validations := by
      rw [hcount, hmax]
      simp only [List.length_cons] at h
      omega
    obtain ⟨h1, h2, h3⟩ := ih ref' hh
    refine ⟨?_, ?_, ?_⟩
    · intro o ho
      simp only [List.mem_cons] at ho
      rcases ho with ho | ho
      · exact ⟨res, ho⟩
      · exact h1 o ho
    · rw [h2, hcount]
      simp only [List.length_cons]
      omega
    · rw [h3, hmax]

/-- C5 counterexample: `add_rule(None)` raises ValidationError ("Rule cannot
be None"), which is not the configuration kind — the claim that a
ConfigurationError is raised fails on the code. -/
theorem claim5_counterexample :
    refDemo.addRule RuleArg.none =
      .error (.validationError "Rule cannot be None") ∧
    RefErr.isConfiguration (RefErr.validationError "Rule cannot be None") =
      false :=
  ⟨rfl, rfl⟩

/-- C5 (amended): `add_rule(rule)` fails with a validation-kind error
(ValidationError) whenever the rule is None or does not satisfy the Rule
capability, and otherwise appends the rule so that the evaluation order grows
by exactly that rule. -/
theorem claim5_add_rule_validation_error (ref : Referee) :
    ref.addRule RuleArg.none =
      .error (.validationError "Rule cannot be None") ∧
    (∀ t, ref.addRule (.notARule t) =
      .error (.validationError ("Expected Rule instance, got " ++ t))) ∧
    (∀ r, ∃ ref', ref.addRule (.rule r) = .ok ref' ∧
      ref'.rules = ref.rules ++ [r] ∧
      ref'.rules.length = ref.rules.length + 1) := by
  refine ⟨rfl, fun t => rfl, fun r => ⟨_, rfl, rfl, ?_⟩⟩
  simp

/-- C6 counterexample: two Actions with the same `action_type` but different
`data` hash identically but do NOT compare equal — the dataclass-generated
`__eq__` compares the data field too. -/
theorem claim6_counterexample :
    Action.pyHash ⟨"login", [("k", "1")]⟩ = Action.pyHash ⟨"login", []⟩ ∧
    Action.pyEq ⟨"login", [("k", "1")]⟩ ⟨"login", []⟩ = false :=
  ⟨rfl, rfl⟩

/-- C6 (amended): the hash is based on `action_type` only — same type, any
data, gives the same hash — while equality is field-based: two Actions with
the same type compare equal exactly when their data also agree. -/
theorem claim6_hash_type_only (t : String) (d1 d2 : List (String × String)) :
    Action.pyHash ⟨t, d1⟩ = Action.pyHash ⟨t, d2⟩ ∧
    (Action.pyEq ⟨t, d1⟩ ⟨t, d2⟩ = true ↔ d1 = d2) := by
  refine ⟨rfl, ?_⟩
  rw [pyEq_iff]
  simp

/-- C8: dividing by zero fails with a DivisionByZeroError carrying the
dividend, and the calculator's prior accumulated state (`_last_result`) is
unchanged by the failed call. -/
theorem claim8_divide_by_zero (c : Calculator) (a : Rat) :
    Calculator.divide c a 0 = (.error { dividend := a }, c) := by
  unfold Calculator.divide DivideOperation.execute
  simp

/-- C9: whenever `validate` raises (ceiling reached, None action, or a
non-Action argument), the referee state is returned unchanged and no rule's
evaluate is invoked (empty call log). -/
theorem claim9_raise_leaves_state_unchanged (ref : Referee) (arg : PyArg)
    (e : RefErr) (herr : (ref.validate arg).1 = .error e) :
    (ref.validate arg).2.1 = ref ∧ (ref.validate arg).2.2 = [] := by
  by_cases hcap : ref.validation_count ≥ ref.max_validations
  · unfold Referee.validate
    rw [if_pos hcap]
    exact ⟨rfl, rfl⟩
  · have hlt : ref.validation_count < ref.max_validations :=
      Nat.lt_of_not_le hcap
    cases arg with
    | none =>
      unfold Referee.validate
      rw [if_neg hcap]
      exact ⟨rfl, rfl⟩
    | notAnAction t =>
      unfold Referee.validate
      rw [if_neg hcap]
      exact ⟨rfl, rfl⟩
    | action a =>
      obtain ⟨res, ref', cs, heq, _⟩ := validate_ok ref a hlt
      rw [heq] at herr
      exact absurd herr (by simp)

/-- C9 witness: an exhausted referee rejects a valid action with
ResourceExhaustedError and is left exactly as it was, no rule invoked. -/
theorem claim9_witness :
    (claim9Ref.validate (.action ⟨"login", []⟩)).1 =
      .error (.resourceExhaustedError (ceilingMessage 5)) ∧
    (claim9Ref.validate (.action ⟨"login", []⟩)).2.1 = claim9Ref ∧
    (claim9Ref.validate (.action ⟨"login", []⟩)).2.2 = [] := by
  refine ⟨rfl, ?_, ?_⟩
  · exact (claim9_raise_leaves_state_unchanged claim9Ref (.action ⟨"login", []⟩)
      (.resourceExhaustedError (ceilingMessage 5)) rfl).1
  · exact (claim9_raise_leaves_state_unchanged claim9Ref (.action ⟨"login", []⟩)
      (.resourceExhaustedError (ceilingMessage 5)) rfl).2

/-- C1: for every Referee and valid Action, on the path that actually
computes a result (caching off, or no cached entry for the action),
`validate` returns a result whose `is_valid` is the logical AND of the
outcomes of the rules actually evaluated; with fail-fast, rules after the
first failing or erroring rule are neither invoked (absent from the call log)
nor counted in `rules_evaluated`. -/
theorem claim1_is_valid_conjunction (ref : Referee) (a : Action)
    (hcap : ref.validation_count < ref.max_validations)
    (hmiss : ref.enable_caching = false ∨
      lruExtract ref.cache a = Option.none) :
    ∃ res ref' cs, ref.validate (.action a) = (.ok res, ref', cs) ∧
      res.is_valid =
        (evaluatedRules ref.fail_fast a ref.rules).all
          (fun r => (r.evaluate a).passed) ∧
      cs = (evaluatedRules ref.fail_fast a ref.rules).map Rule.name ∧
      res.metadata.rules_evaluated =
        (evaluatedRules ref.fail_fast a ref.rules).length := by
  obtain ⟨ref', heq⟩ := validate_miss ref a hcap hmiss
  by_cases hemp : ref.rules.isEmpty = true
  · have hr : ref.rules = [] := List.isEmpty_iff.mp hemp
    have hres := validateUncached_nil
      { ref with validation_count := ref.validation_count + 1 } a hr
    rw [hres] at heq
    rw [hr]
    exact ⟨_, _, _, heq, rfl, rfl, rfl⟩
  · have hne : ref.rules.isEmpty = false := Bool.not_eq_true _ ▸ hemp
    have hres := validateUncached_spec
      { ref with validation_count := ref.validation_count + 1 } a hne
    rw [hres] at heq
    exact ⟨_, _, _, heq, rfl, rfl, rfl⟩

/-- C1 witness: a fail-fast referee whose first rule rejects the action —
the second rule is neither invoked nor counted, and the overall verdict is
the AND of the single evaluated outcome. -/
theorem claim1_witness :
    claim1Ref.validation_count < claim1Ref.max_validations ∧
    (evaluatedRules claim1Ref.fail_fast ⟨"logout", []⟩ claim1Ref.rules).map
      Rule.name = ["ActionTypeRule(login)"] ∧
    (∃ res ref' cs,
      claim1Ref.validate (.action ⟨"logout", []⟩) = (.ok res, ref', cs) ∧
      res.is_valid =
        (evaluatedRules claim1Ref.fail_fast ⟨"logout", []⟩
          claim1Ref.rules).all
            (fun r => (r.evaluate ⟨"logout", []⟩).passed) ∧
      cs = (evaluatedRules claim1Ref.fail_fast ⟨"logout", []⟩
        claim1Ref.rules).map Rule.name ∧
      res.metadata.rules_evaluated =
        (evaluatedRules claim1Ref.fail_fast ⟨"logout", []⟩
          claim1Ref.rules).length) :=
  ⟨by decide, rfl,
   claim1_is_valid_conjunction claim1Ref ⟨"logout", []⟩ (by decide)
     (Or.inr rfl)⟩

/-- C4: a referee with zero registered rules accepts any valid action with
exactly the default message and all-zero rule counts (the cache-coherence
hypothesis says every cached entry was produced by an empty-rules evaluation,
which holds for every reachable zero-rule referee since rules only grow). -/
theorem claim4_no_rules_accepts (ref : Referee) (a : Action)
    (hr : ref.rules = [])
    (hcap : ref.validation_count < ref.max_validations)
    (hcache : ∀ p ∈ ref.cache, ∃ n, p.2 = emptyRulesResult n) :
    ∃ res ref' cs, ref.validate (.action a) = (.ok res, ref', cs) ∧
      res.is_valid = true ∧
      res.messages = ["No rules configured - action accepted by default"] ∧
      res.metadata.rules_evaluated = 0 ∧
      res.metadata.rules_passed = 0 ∧
      res.metadata.rules_failed = 0 := by
  cases hc : ref.enable_caching with
  | false =>
    obtain ⟨ref', heq⟩ := validate_miss ref a hcap (Or.inl hc)
    rw [validateUncached_nil
      { ref with validation_count := ref.validation_count + 1 } a hr] at heq
    exact ⟨_, _, _, heq, rfl, rfl, rfl, rfl, rfl⟩
  | true =>
    cases hl : lruExtract ref.cache a with
    | none =>
      obtain ⟨ref', heq⟩ := validate_miss ref a hcap (Or.inr hl)
      rw [validateUncached_nil
        { ref with validation_count := ref.validation_count + 1 } a hr] at heq
      exact ⟨_, _, _, heq, rfl, rfl, rfl, rfl, rfl⟩
    | some er =>
      obtain ⟨e, rest⟩ := er
      obtain ⟨_, hmem⟩ := lruExtract_some ref.cache a e rest hl
      obtain ⟨n, hval⟩ := hcache e hmem
      have heq := validate_hit_general ref a e rest hl hcap hc
      rw [hval] at heq
      exact ⟨_, _, _, heq, rfl, rfl, rfl, rfl, rfl⟩

/-- C4 witness: a fresh referee with no rules accepts a concrete action with
the default message. -/
theorem claim4_witness :
    ∃ res ref' cs,
      claim4Ref.validate (.action ⟨"anything", [("k", "v")]⟩) =
        (.ok res, ref', cs) ∧
      res.is_valid = true ∧
      res.messages = ["No rules configured - action accepted by default"] ∧
      res.metadata.rules_evaluated = 0 ∧
      res.metadata.rules_passed = 0 ∧
      res.metadata.rules_failed = 0 :=
  claim4_no_rules_accepts claim4Ref ⟨"anything", [("k", "v")]⟩ rfl (by decide)
    (by intro p hp; exact absurd hp (by simp [claim4Ref]))

/-- C7: without fail-fast, a rule whose evaluate raises is caught per-rule
and recorded as a failing outcome with the synthesized message (the
`ruleMessage` format: "[name] Error: msg" for unexpected exceptions,
"[name] ValidationError: msg" for validation-kind ones), it is counted in
`rules_failed` and `rules_evaluated`, every remaining rule is still invoked,
and there is exactly one message entry per rule — no error is swallowed. -/
theorem claim7_rule_error_isolation (ref : Referee) (a : Action)
    (hff : ref.fail_fast = false)
    (hne : ref.rules.isEmpty = false) :
    (ref.validateUncached a).1.messages = ref.rules.map (ruleMessage a) ∧
    (ref.validateUncached a).2 = ref.rules.map Rule.name ∧
    (ref.validateUncached a).1.metadata.rules_evaluated = ref.rules.length ∧
    (ref.validateUncached a).1.metadata.rules_failed =
      (ref.rules.filter (fun r => !(r.evaluate a).passed)).length ∧
    (ref.validateUncached a).1.is_valid =
      ref.rules.all (fun r => (r.evaluate a).passed) := by
  rw [validateUncached_spec ref a hne, hff, evaluatedRules_all]
  exact ⟨rfl, rfl, rfl, rfl, rfl⟩

/-- C7 witness: a chain with a raw erroring rule, a template-wrapped erroring
rule and a passing rule — both errors are recorded with the synthesized
messages, both are counted as failures, and the third rule still runs. -/
theorem claim7_witness :
    (claim7Ref.validateUncached ⟨"login", []⟩).1.messages =
      ["[BoomRule] Error: boom",
       "[WrappedBangRule] ValidationError: Rule 'WrappedBangRule' failed: bang",
       "[AlwaysValidRule] Action is valid"] ∧
    (claim7Ref.validateUncached ⟨"login", []⟩).2 =
      ["BoomRule", "WrappedBangRule", "AlwaysValidRule"] ∧
    (claim7Ref.validateUncached ⟨"login", []⟩).1.metadata.rules_evaluated = 3 ∧
    (claim7Ref.validateUncached ⟨"login", []⟩).1.metadata.rules_failed = 2 ∧
    (claim7Ref.validateUncached ⟨"login", []⟩).1.is_valid = false := by
  obtain ⟨h1, h2, h3, h4, h5⟩ :=
    claim7_rule_error_isolation claim7Ref ⟨"login", []⟩ rfl rfl
  refine ⟨?_, ?_, ?_, ?_, ?_⟩
  · rw [h1]; rfl
  · rw [h2]; rfl
  · rw [h3]; rfl
  · rw [h4]; rfl
  · rw [h5]; rfl

/-- C2: with caching enabled, a second `validate` call on an equal Action
returns the previously computed ValidationResult object with an empty call
log (no rule's evaluate/hook re-invoked), and the validation counter is still
incremented by the second call (the ceiling check applies to every call). -/
theorem claim2_cache_hit_no_reinvocation (ref : Referee) (a a' : Action)
    (hc : ref.enable_caching = true)
    (hcap : ref.validation_count + 1 < ref.max_validations)
    (heqa : Action.pyEq a a' = true) :
    ∃ res ref1 cs1 ref2,
      ref.validate (.action a) = (.ok res, ref1, cs1) ∧
      ref1.validate (.action a') = (.ok res, ref2, []) ∧
      ref2.validation_count = ref1.validation_count + 1 := by
  have hlt : ref.validation_count < ref.max_validations := by omega
  obtain ⟨res, ref1, cs1, k, rest, h1, hcache, hk, hrules, hcnt, hmax, hen, hff1⟩ :=
    validate_caching_head ref a hlt hc
  have hlt2 : ref1.validation_count < ref1.max_validations := by
    rw [hcnt, hmax]
    omega
  have hk' : Action.pyEq k a' = true := by
    rw [pyEq_iff] at hk heqa ⊢
    rw [hk, heqa]
  have hhit := validate_hit ref1 a' k res rest hcache hk' hlt2 (hen.trans hc)
  exact ⟨res, ref1, cs1, _, h1, hhit, rfl⟩

/-- C2 witness: two consecutive validations of the same concrete action on a
fresh caching referee — the second returns the same result with no rule
invocation and still increments the counter. -/
theorem claim2_witness :
    ∃ res ref1 cs1 ref2,
      claim2Ref.validate (.action ⟨"login", [("u", "x")]⟩) =
        (.ok res, ref1, cs1) ∧
      ref1.validate (.action ⟨"login", [("u", "x")]⟩) = (.ok res, ref2, []) ∧
      ref2.validation_count = ref1.validation_count + 1 :=
  claim2_cache_hit_no_reinvocation claim2Ref ⟨"login", [("u", "x")]⟩
    ⟨"login", [("u", "x")]⟩ rfl (by decide) (by decide)

/-- C3: starting from a fresh counter, `ceiling` validations all succeed, the
next call fails with ResourceExhaustedError carrying the exact message that
cites the configured maximum and advises resetting or raising the limit, and
`reset()` returns the counter to 0, purges the cache, and restores
acceptance. -/
theorem claim3_ceiling_and_reset (ref : Referee) (acts : List Action)
    (b : Action)
    (h0 : ref.validation_count = 0)
    (hpos : 0 < ref.max_validations)
    (hlen : acts.length = ref.max_validations) :
    (∀ o ∈ (validateRun ref acts).2, ∃ res, o = .ok res) ∧
    ((validateRun ref acts).1.validate (.action b)).1 =
      .error (.resourceExhaustedError (ceilingMessage ref.max_validations)) ∧
    (validateRun ref acts).1.reset.validation_count = 0 ∧
    (validateRun ref acts).1.reset.cache = [] ∧
    (∃ res ref' cs, (validateRun ref acts).1.reset.validate (.action b) =
      (.ok res, ref', cs)) := by
  obtain ⟨h1, h2, h3⟩ := validateRun_ok acts ref (by omega)
  refine ⟨h1, ?_, rfl, rfl, ?_⟩
  · have hge : (validateRun ref acts).1.validation_count ≥
        (validateRun ref acts).1.max_validations := by omega
    unfold Referee.validate
    rw [if_pos hge, h3]
  · have hrc : (validateRun ref acts).1.reset.validation_count = 0 := rfl
    have hrm : (validateRun ref acts).1.reset.max_validations =
        (validateRun ref acts).1.max_validations := rfl
    have hlt : (validateRun ref acts).1.reset.validation_count <
        (validateRun ref acts).1.reset.max_validations := by omega
    obtain ⟨res, ref', cs, heqq, _⟩ := validate_ok _ b hlt
    exact ⟨res, ref', cs, heqq⟩

/-- C3 witness: ceiling 2 — two validations succeed, the third fails with the
exact advisory message, and a reset restores acceptance. -/
theorem claim3_witness :
    (∀ o ∈ (validateRun claim3Ref [⟨"a", []⟩, ⟨"b", []⟩]).2,
      ∃ res, o = .ok res) ∧
    ((validateRun claim3Ref [⟨"a", []⟩, ⟨"b", []⟩]).1.validate
        (.action ⟨"c", []⟩)).1 =
      .error (.resourceExhaustedError
        "Maximum validation limit of 2 reached. Consider resetting or increasing the limit.") ∧
    (validateRun claim3Ref [⟨"a", []⟩, ⟨"b", []⟩]).1.reset.validation_count
      = 0 ∧
    (validateRun claim3Ref [⟨"a", []⟩, ⟨"b", []⟩]).1.reset.cache = [] ∧
    (∃ res ref' cs,
      (validateRun claim3Ref [⟨"a", []⟩, ⟨"b", []⟩]).1.reset.validate
        (.action ⟨"c", []⟩) = (.ok res, ref', cs)) :=
  claim3_ceiling_and_reset claim3Ref [⟨"a", []⟩, ⟨"b", []⟩] ⟨"c", []⟩ rfl
    (by decide) rfl

/-- C10: with caching enabled, `add_rule` does not invalidate the memoized
result: after a cached validation of `a`, adding a rule `r` and validating an
equal action returns the originally cached result with an empty call log (`r`
is never evaluated, and the result cannot reflect `r` or the current
counter), while validating after `clear_cache()` re-invokes the whole rule
chain including `r`. -/
theorem claim10_add_rule_stale_cache (ref : Referee) (a a' : Action)
    (r : Rule)
    (hc : ref.enable_caching = true)
    (hcap : ref.validation_count + 1 < ref.max_validations)
    (heqa : Action.pyEq a a' = true)
    (hff : ref.fail_fast = false) :
    ∃ res ref1 cs1 ref2,
      ref.validate (.action a) = (.ok res, ref1, cs1) ∧
      ref1.addRule (.rule r) = .ok ref2 ∧
      (∃ ref3, ref2.validate (.action a') = (.ok res, ref3, [])) ∧
      (ref2.clearCache.validate (.action a)).2.2 =
        (ref.rules ++ [r]).map Rule.name := by
  have hlt : ref.validation_count < ref.max_validations := by omega
  obtain ⟨res, ref1, cs1, k, rest, h1, hcache, hk, hrules, hcnt, hmax, hen, hff1⟩ :=
    validate_caching_head ref a hlt hc
  refine ⟨res, ref1, cs1, { ref1 with rules := ref1.rules ++ [r] },
    h1, rfl, ?_, ?_⟩
  · have hlt2 : ref1.validation_count < ref1.max_validations := by
      rw [hcnt, hmax]
      omega
    have hk' : Action.pyEq k a' = true := by
      rw [pyEq_iff] at hk heqa ⊢
      rw [hk, heqa]
    have hhit := validate_hit { ref1 with rules := ref1.rules ++ [r] } a' k
      res rest hcache hk' hlt2 (hen.trans hc)
    exact ⟨_, hhit⟩
  · have hlt3 : ref1.validation_count < ref1.max_validations := by
      rw [hcnt, hmax]
      omega
    obtain ⟨refX, heqX⟩ := validate_miss
      ({ ref1 with rules := ref1.rules ++ [r] } : Referee).clearCache a hlt3
      (Or.inr rfl)
    rw [heqX]
    have hne : (ref1.rules ++ [r]).isEmpty = false := by
      cases hcase : ref1.rules <;> rfl
    rw [validateUncached_spec _ a hne]
    show (evaluatedRules ref1.fail_fast a (ref1.rules ++ [r])).map Rule.name
      = (ref.rules ++ [r]).map Rule.name
    rw [hff1, hff, evaluatedRules_all, hrules]

/-- C10 witness: concrete run of the stale-cache scenario with BoomRule added
after the first validation. -/
theorem claim10_witness :
    ∃ res ref1 cs1 ref2,
      claim10Ref.validate (.action ⟨"x", []⟩) = (.ok res, ref1, cs1) ∧
      ref1.addRule (.rule BoomRule) = .ok ref2 ∧
      (∃ ref3, ref2.validate (.action ⟨"x", []⟩) = (.ok res, ref3, [])) ∧
      (ref2.clearCache.validate (.action ⟨"x", []⟩)).2.2 =
        (claim10Ref.rules ++ [BoomRule]).map Rule.name :=
  claim10_add_rule_stale_cache claim10Ref ⟨"x", []⟩ ⟨"x", []⟩ BoomRule rfl
    (by decide) (by decide) rfl

end RefereeSpec
